import Mathlib

/-!
Shallow embedding of the `fiscalisation` Odoo module (files
`models/fiscal_device.py` and `models/account_move.py`) and proofs about
its specified behaviour.

Conventions of the embedding:
* Odoo record fields that may be unset (falsy `False`/`None`) are modelled
  as `Option` values, `none` standing for unset.
* Timestamps are natural numbers (seconds); only their ordering matters.
* Monetary amounts are rationals; the Python code only negates and
  multiplies them, so the algebraic identities carry over exactly.
* Functions that `raise UserError` are modelled with `Except String`.
* HTTP traffic is not performed; the functions are modelled up to the
  point where a request would be issued, or are given the decoded
  response body as an argument.
-/

namespace Fiscalisation

/-- Events observable at the HTTP boundary of a device call. -/
inductive ApiEvent where
  | tokenAcquisition
  | primaryRequest
deriving DecidableEq, Repr

/-- Mirror of the mutable state of a `fiscal.device` record
(`models/fiscal_device.py`, field declarations).  Only fields written by
the modelled operations are kept. -/
structure DeviceState where
  access_token : Option String := none
  refresh_token : Option String := none
  token_expiry : Option Nat := none
  fiscal_day_status : Option String := none
  fiscal_day_no : Option String := none
  last_receipt_global_no : Option Int := none
  last_receipt_no : Option Int := none
  last_op_stamp : Option Nat := none
  last_error_code : Option String := none
  last_error_message : Option String := none
  last_error_status : Option Int := none
  last_status_check : Option Nat := none
deriving DecidableEq, Repr

/-- Mirror of `_compute_is_day_open`: `record.is_day_open =
record.fiscal_day_status != 'FISCALDAYCLOSED'`.  An unset Char field is
falsy (`False`) in Odoo and still compares unequal to the string. -/
def computeIsDayOpen (fiscal_day_status : Option String) : Bool :=
  fiscal_day_status ≠ some "FISCALDAYCLOSED"

/-- Decoded body of a `POST /api/v1/day/close` response; absent JSON keys
are `none` (Python `response.get(k)` then yields `None`). -/
structure CloseDayResponse where
  fiscalDayStatus : Option String := none
  fiscalDayNo : Option String := none
  lastReceiptGlobalNo : Option Int := none
  lastReceiptNo : Option Int := none
  fiscalDayClosed : Option String := none
deriving DecidableEq, Repr

/-- The write performed by `action_close_day` on a successful response:
`fiscal_day_status := response.get('fiscalDayStatus')`,
`last_receipt_global_no := response.get('lastReceiptGlobalNo')`,
`fiscal_day_no := response.get('fiscalDayNo')`,
`last_operation := now`.  No other field is touched. -/
def actionCloseDayWrite (st : DeviceState) (resp : CloseDayResponse)
    (now : Nat) : DeviceState :=
  { st with
    fiscal_day_status := resp.fiscalDayStatus
    last_receipt_global_no := resp.lastReceiptGlobalNo
    fiscal_day_no := resp.fiscalDayNo
    last_op_stamp := some now }

/-- Decoded body of a `POST /api/v1/devices/token` response; a key the
body lacks is `none`. -/
structure TokenResponse where
  access_token : Option String := none
  refresh_token : Option String := none
  expires_in : Option Nat := none
deriving DecidableEq, Repr

/-- Mirror of `_get_new_token`, modelled on the HTTP-success path with the decoded
body as input.  If any of `access_token`, `refresh_token`, `expires_in`
is missing, the code raises `UserError('Invalid API response structure')`
inside the `try`; that exception is caught by the trailing
`except Exception` handler, which records `last_error_code =
'UNKNOWN_ERROR'` and re-raises `UserError('Token refresh failed: ...')`.
Otherwise the three token fields are written, with
`token_expiry = now + expires_in`. -/
def getNewToken (st : DeviceState) (resp : TokenResponse) (now : Nat) :
    DeviceState × Except String Unit :=
  match resp.access_token, resp.refresh_token, resp.expires_in with
  | some at_, some rt, some exp =>
      ({ st with
          access_token := some at_
          refresh_token := some rt
          token_expiry := some (now + exp) },
       Except.ok ())
  | _, _, _ =>
      ({ st with
          last_error_code := some "UNKNOWN_ERROR"
          last_error_message :=
            some "Token refresh failed: Invalid API response structure"
          last_error_status := some 0
          last_status_check := some now },
       Except.error "Token refresh failed: Invalid API response structure")

/-- The expiry test of `_refresh_token_if_needed`:
`not self.token_expiry or datetime.now() > token_expiry`. -/
def tokenExpired (token_expiry : Option Nat) (now : Nat) : Bool :=
  match token_expiry with
  | none => true
  | some e => now > e

/-- HTTP-boundary events emitted by `_refresh_token_if_needed`: one call
to `_get_new_token` when the token is unset or expired, none otherwise. -/
def refreshTokenIfNeededEvents (token_expiry : Option Nat) (now : Nat) :
    List ApiEvent :=
  if tokenExpired token_expiry now then [ApiEvent.tokenAcquisition] else []

/-- HTTP-boundary events of `_api_request` on the success path: first
`_refresh_token_if_needed`, then exactly one primary request. -/
def apiRequestEvents (token_expiry : Option Nat) (now : Nat) :
    List ApiEvent :=
  refreshTokenIfNeededEvents token_expiry now ++ [ApiEvent.primaryRequest]

/-- Decoded 422 response body as far as `_parse_validation_errors` reads
it: top-level `errorCode` and `detail` (absent keys are `none`), and the
`errors` map as an association list in insertion order (Python dicts
iterate in insertion order). -/
structure ValidationBody where
  errorCode : Option String := none
  detail : Option String := none
  errors : Option (List (String × List String)) := none
deriving DecidableEq, Repr

/-- The `error_map` lookup table of `_parse_validation_errors`. -/
def errorMapLookup (code : String) : Option String :=
  if code = "DEVICE_NOT_FOUND" then some "Device not registered in FDMS"
  else if code = "INVALID_OPERATION_STATE" then
    some "Device in invalid state for requested operation"
  else if code = "MISSING_REQUIRED_FIELD" then
    some "Required configuration missing in device"
  else if code = "AUTH_TOKEN_EXPIRED" then
    some "Authentication token has expired"
  else none

/-- Mirror of `_parse_validation_errors`: `message_parts` starts as
`[error_map.get(errorCode, default), response_data.get('detail', '')]`
(the detail slot is always present, empty string when the key is
missing), then one entry per field of the `errors` map, and the parts are
joined with a newline. -/
def parseValidationErrors (rd : ValidationBody) : String :=
  let label := (errorMapLookup (rd.errorCode.getD "")).getD
    "Validation error occurred"
  let fieldParts :=
    match rd.errors with
    | none => []
    | some errs =>
        errs.map (fun fe =>
          "Field " ++ fe.1 ++ ": " ++ String.intercalate ", " fe.2)
  String.intercalate "\n" (label :: rd.detail.getD "" :: fieldParts)

/-- A tax record as read by the payload builder: `amount` (the percent)
and `price_include`. -/
structure Tax where
  amount : ℚ
  price_include : Bool
deriving DecidableEq, Repr

/-- The product data read by `_prepare_receipt_lines`. -/
structure ProductInfo where
  hs_code : Option String := none
deriving DecidableEq, Repr

/-- An `account.move.line` as read by the payload builder.
`display_type` is `none` for plain lines; `product_id` is `none` when no
product is linked. -/
structure MoveLine where
  name : String := ""
  quantity : ℚ := 0
  price_unit : ℚ := 0
  discount : ℚ := 0
  tax_ids : List Tax := []
  display_type : Option String := none
  product_id : Option ProductInfo := none
deriving DecidableEq, Repr

/-- An `res.partner` as read by `_prepare_buyer_data` and the
`customer_vat` / `customer_tin` computes.  Unset char fields are
`none`. -/
structure Partner where
  name : String := ""
  vat : Option String := none
  tin_number : Option String := none
  tin : Option String := none
  phone : Option String := none
  email : Option String := none
deriving DecidableEq, Repr

/-- The invoice data the orchestrator reads. -/
structure Invoice where
  name : String := ""
  fiscalised : Bool := false
  move_type : String := "out_invoice"
  currency_name : String := "USD"
  ref : Option String := none
  reversed_entry_name : Option String := none
  amount_total : ℚ := 0
  partner : Option Partner := none
  lines : List MoveLine := []
deriving DecidableEq, Repr

/-- Mirror of `_compute_receipt_type`: `out_refund` maps to CreditNote,
`in_refund` to DebitNote, anything else to FiscalInvoice. -/
def computeReceiptType (move_type : String) : String :=
  if move_type = "out_refund" then "CreditNote"
  else if move_type = "in_refund" then "DebitNote"
  else "FiscalInvoice"

/-- Mirror of `_compute_customer_vat`: `partner_id.vat or ''` (an empty recordset
or unset field yields the empty string). -/
def computeCustomerVat (partner : Option Partner) : String :=
  match partner with
  | none => ""
  | some p => p.vat.getD ""

/-- Mirror of `_compute_customer_tin`: `partner_id.tin or ''` — note the source
attribute is `tin`, not the `tin_number` attribute tested in
`_prepare_buyer_data`. -/
def computeCustomerTin (partner : Option Partner) : String :=
  match partner with
  | none => ""
  | some p => p.tin.getD ""

/-- ASCII uppercasing of one character, as Python `str.upper` acts on
ASCII letters (the receipt-type strings are ASCII). -/
def pyUpperChar (c : Char) : Char :=
  if 97 ≤ c.toNat ∧ c.toNat ≤ 122 then Char.ofNat (c.toNat - 32) else c

/-- Python `s.upper()` on ASCII strings: uppercase each code point. -/
def pyUpper (s : String) : String :=
  String.mk (s.data.map pyUpperChar)

/-- Python `s[:n]`: the first `n` code points. -/
def pyTake (s : String) (n : Nat) : String :=
  String.mk (s.data.take n)

/-- Mirror of `_adjust_amount`: multiplier is -1 when
`receipt_type.upper() == 'CREDITNOTE'`, else 1. -/
def adjust_amount (amount : ℚ) (receipt_type : String) : ℚ :=
  if pyUpper receipt_type = "CREDITNOTE" then -amount else amount

/-- One entry of the `receiptLines` array.  `receiptLineNo` is assigned
as `len(lines) + 1` at insertion time.  `taxPercent` is present exactly
when the source line has taxes. -/
structure ReceiptLine where
  receiptLineType : String
  receiptLineNo : Nat
  receiptLineHSCode : String
  receiptLineName : String
  receiptLinePrice : ℚ
  receiptLineQuantity : ℚ
  receiptLineTotal : ℚ
  taxPercent : Option ℚ := none
deriving DecidableEq, Repr

/-- The search domain of `_prepare_receipt_lines`: positive quantity,
`display_type in (False, 'product')`, and a linked product. -/
def qualifiesReceiptLine (l : MoveLine) : Bool :=
  0 < l.quantity ∧
    (l.display_type = none ∨ l.display_type = some "product") ∧
    l.product_id.isSome

/-- The `taxPercent` value of a source line: present exactly when the
line has taxes, as `float(sum(line.tax_ids.mapped("amount")))`. -/
def taxPercentOf (l : MoveLine) : Option ℚ :=
  if l.tax_ids = [] then none else some ((l.tax_ids.map Tax.amount).sum)

/-- The Sale line built for a source line: number `n` is
`len(lines) + 1` at insertion time. -/
def saleLineOf (receipt_type : String) (n : Nat) (l : MoveLine)
    (hs : String) : ReceiptLine :=
  { receiptLineType := "Sale"
    receiptLineNo := n
    receiptLineHSCode := hs
    receiptLineName := pyTake l.name 100
    receiptLinePrice := adjust_amount l.price_unit receipt_type
    receiptLineQuantity := l.quantity
    receiptLineTotal := adjust_amount (l.price_unit * l.quantity) receipt_type
    taxPercent := taxPercentOf l }

/-- The Discount line built when `line.discount > 0`:
`discount_amount = price_unit * (discount / 100)`,
`discount_total = discount_amount * quantity`, both negated after sign
adjustment; HS code and `taxPercent` inherited from the Sale line. -/
def discountLineOf (receipt_type : String) (n : Nat) (l : MoveLine)
    (hs : String) : ReceiptLine :=
  { receiptLineType := "Discount"
    receiptLineNo := n
    receiptLineHSCode := hs
    receiptLineName := pyTake l.name 100 ++ " (Discount)"
    receiptLinePrice :=
      -(adjust_amount (l.price_unit * (l.discount / 100)) receipt_type)
    receiptLineQuantity := l.quantity
    receiptLineTotal :=
      -(adjust_amount (l.price_unit * (l.discount / 100) * l.quantity)
        receipt_type)
    taxPercent := taxPercentOf l }

/-- Body of the `for line in inv_lines` loop of `_prepare_receipt_lines`:
raise when the product lacks an HS code, append the Sale line (numbered
`len(lines) + 1`), and when `discount > 0` append the companion Discount
line (numbered `len(lines) + 1` after the Sale append, i.e. the next
index). -/
def processLine (receipt_type : String) (acc : List ReceiptLine)
    (l : MoveLine) : Except String (List ReceiptLine) :=
  match l.product_id.bind ProductInfo.hs_code with
  | none => Except.error ("Product (" ++ l.name ++ ") has no HS Code")
  | some hs =>
      if 0 < l.discount then
        Except.ok
          ((acc ++ [saleLineOf receipt_type (acc.length + 1) l hs]) ++
            [discountLineOf receipt_type (acc.length + 2) l hs])
      else
        Except.ok (acc ++ [saleLineOf receipt_type (acc.length + 1) l hs])

/-- The loop of `_prepare_receipt_lines` over the filtered lines,
threading the growing `lines` list. -/
def prepareLinesGo (receipt_type : String) :
    List MoveLine → List ReceiptLine → Except String (List ReceiptLine)
  | [], acc => Except.ok acc
  | l :: rest, acc =>
      match processLine receipt_type acc l with
      | Except.error e => Except.error e
      | Except.ok acc1 => prepareLinesGo receipt_type rest acc1

/-- Mirror of `_prepare_receipt_lines`. -/
def prepareReceiptLines (receipt_type : String) (lines : List MoveLine) :
    Except String (List ReceiptLine) :=
  prepareLinesGo receipt_type (lines.filter qualifiesReceiptLine) []

/-- The `buyerData` object (fields not needed by the claims omitted
from the record but filled from the same sources). -/
structure BuyerData where
  buyerRegisterName : String
  vatNumber : String
  buyerTIN : String
  phoneNo : String
  email : String
deriving DecidableEq, Repr

/-- Mirror of `_prepare_buyer_data`: raise when there is no partner; build the
buyer object only when both `partner.vat` and `partner.tin_number` are
truthy, else `None`.  `buyerTIN` is the computed `customer_tin`, which
reads the distinct `partner.tin` attribute. -/
def prepareBuyerData (partner : Option Partner) :
    Except String (Option BuyerData) :=
  match partner with
  | none => Except.error "Customer information is required for fiscalisation"
  | some p =>
      if p.vat.isSome ∧ p.tin_number.isSome then
        Except.ok (some
          { buyerRegisterName := p.name
            vatNumber := computeCustomerVat partner
            buyerTIN := computeCustomerTin partner
            phoneNo := p.phone.getD ""
            email := p.email.getD "" })
      else
        Except.ok none

/-- One entry of `receiptPayments`. -/
structure Payment where
  moneyTypeCode : String
  paymentAmount : ℚ
deriving DecidableEq, Repr

/-- Mirror of `_prepare_payment_data`: a single Cash payment for the adjusted
total. -/
def preparePaymentData (receipt_type : String) (amount_total : ℚ) :
    List Payment :=
  [{ moneyTypeCode := "Cash"
     paymentAmount := adjust_amount amount_total receipt_type }]

/-- The `receipt` object of the request body. -/
structure FiscalPayload where
  receiptType : String
  receiptCurrency : String
  invoiceNo : String
  buyerData : Option BuyerData
  receiptNotes : String
  creditDebitNoteInvoiceNo : String
  receiptLinesTaxInclusive : Bool
  receiptLines : List ReceiptLine
  receiptPayments : List Payment
  receiptTotal : ℚ
deriving DecidableEq, Repr

/-- First taxes of the lines scanned by `_prepare_fiscal_payload` (its
search keeps only `quantity > 0`; lines without taxes are skipped). -/
def taxInclusionTypes (inv : Invoice) : List Bool :=
  (inv.lines.filter (fun l => 0 < l.quantity)).filterMap (fun l =>
    match l.tax_ids with
    | [] => none
    | t :: _ => some t.price_include)

/-- The `len(tax_inclusion_types) > 1` test on the collected set: for
booleans this is exactly having both values. -/
def mixedTaxInclusion (inv : Invoice) : Bool :=
  (taxInclusionTypes inv).contains true &&
    (taxInclusionTypes inv).contains false

/-- Mirror of `_prepare_fiscal_payload`, in source order: collect inclusivity
flags and fail fast on a mixed set, then build the dict — whose literal
evaluates `_prepare_buyer_data` before `_prepare_receipt_lines`. -/
def prepareFiscalPayload (inv : Invoice) : Except String FiscalPayload :=
  if mixedTaxInclusion inv then
    Except.error ("Mixed tax inclusion types detected. All invoice lines " ++
      "must consistently have either tax-inclusive or tax-exclusive prices.")
  else
    let receiptLinesTaxInclusive :=
      match taxInclusionTypes inv with
      | [] => true
      | b :: _ => b
    let rt := computeReceiptType inv.move_type
    match prepareBuyerData inv.partner with
    | Except.error e => Except.error e
    | Except.ok buyer =>
        match prepareReceiptLines rt inv.lines with
        | Except.error e => Except.error e
        | Except.ok rls =>
            Except.ok
              { receiptType := rt
                receiptCurrency := inv.currency_name
                invoiceNo := inv.name
                buyerData := buyer
                receiptNotes := inv.ref.getD ""
                creditDebitNoteInvoiceNo :=
                  if inv.move_type = "out_refund" ∨
                      inv.move_type = "in_refund" then
                    inv.reversed_entry_name.getD ""
                  else ""
                receiptLinesTaxInclusive := receiptLinesTaxInclusive
                receiptLines := rls
                receiptPayments := preparePaymentData rt inv.amount_total
                receiptTotal := adjust_amount inv.amount_total rt }

/-- How far `action_fiscalise_invoice` gets before the HTTP call:
a precondition rejection, a payload-construction error, or the request
that would be issued. -/
inductive FiscaliseOutcome where
  | precondError (msg : String)
  | payloadError (msg : String)
  | request (payload : FiscalPayload)
deriving DecidableEq, Repr

/-- Mirror of `action_fiscalise_invoice` up to (and excluding) the
`device._api_request` call: first the `fiscalised` guard, then the
device-configured guard, then payload construction. -/
def actionFiscaliseInvoice (inv : Invoice) (device : Option DeviceState) :
    FiscaliseOutcome :=
  if inv.fiscalised then
    FiscaliseOutcome.precondError "This invoice is already fiscalised"
  else
    match device with
    | none =>
        FiscaliseOutcome.precondError
          "No fiscal device configured for this company"
    | some _ =>
        match prepareFiscalPayload inv with
        | Except.error e => FiscaliseOutcome.payloadError e
        | Except.ok p => FiscaliseOutcome.request p

/-! ### Concrete inputs used by witnesses and counterexamples -/

/-- The day-close response of the specification's example:
`fiscalDayStatus = FISCALDAYCLOSED`, `fiscalDayNo = "12"`,
`lastReceiptNo = 7`; no `lastReceiptGlobalNo` key. -/
def closeResp12 : CloseDayResponse :=
  { fiscalDayStatus := some "FISCALDAYCLOSED"
    fiscalDayNo := some "12"
    lastReceiptNo := some 7 }

/-- A device state with a previously mirrored receipt counter. -/
def devBefore : DeviceState :=
  { fiscal_day_status := some "FISCALDAYOPENED"
    fiscal_day_no := some "11"
    last_receipt_global_no := some 41
    last_receipt_no := some 3 }

/-- A token response lacking `access_token`. -/
def tokenRespMissing : TokenResponse :=
  { refresh_token := some "r", expires_in := some 3600 }

/-- The 422 body of the specification's example. -/
def vBody422 : ValidationBody :=
  { errorCode := some "MISSING_REQUIRED_FIELD"
    detail := some "x"
    errors := some [("buyerTIN", ["required"])] }

/-- A partner with `vat` and `tin_number` set but no `tin`. -/
def partnerNoTin : Partner :=
  { name := "Acme", vat := some "V123", tin_number := some "T123" }

end Fiscalisation

namespace Fiscalisation

/-! ### Claims -/

/-- C1: the claim states that `is_day_open = (fiscal_day_status !=
CLOSED)` AND that unknown/unset status values make `is_day_open` false.
The code compares against the literal FISCALDAYCLOSED, so an unset
status — which the claim says must yield not-open — yields `true`. -/
theorem C1_counterexample :
    computeIsDayOpen none = true ∧
      computeIsDayOpen (some "SOMETHING_ELSE") = true := by
  constructor <;> rfl

/-- C1 (amended): `is_day_open` is true exactly when `fiscal_day_status`
differs from FISCALDAYCLOSED; hence unknown/other values, including
unset, are treated as OPEN, not as not-open. -/
theorem C1_amended :
    (∀ s : Option String,
        computeIsDayOpen s = true ↔ s ≠ some "FISCALDAYCLOSED") ∧
      computeIsDayOpen none = true ∧
      computeIsDayOpen (some "GARBAGE") = true := by
  refine ⟨fun s => ?_, rfl, rfl⟩
  simp [computeIsDayOpen]

/-- C2: the claim states the close-day write stores the response's
`lastReceiptNo = 7` as the device's last receipt number.  In the code,
`last_receipt_no` is not written at all by `action_close_day`, and
`last_receipt_global_no` is overwritten with the absent
`lastReceiptGlobalNo` key, i.e. cleared — neither field holds 7. -/
theorem C2_counterexample :
    (actionCloseDayWrite devBefore closeResp12 100).last_receipt_no ≠
        some 7 ∧
      (actionCloseDayWrite devBefore closeResp12 100).last_receipt_global_no ≠
        some 7 := by
  constructor <;> decide

/-- C2 (amended): on the example response the write adopts
`fiscalDayStatus` and `fiscalDayNo` exactly and `is_day_open` becomes
false, but the response's `lastReceiptNo` is not persisted
(`last_receipt_no` is untouched) and `last_receipt_global_no` is
overwritten with the absent `lastReceiptGlobalNo` key, clearing it. -/
theorem C2_amended :
    ∀ (st : DeviceState) (now : Nat),
      let st1 := actionCloseDayWrite st closeResp12 now
      st1.fiscal_day_status = some "FISCALDAYCLOSED" ∧
        st1.fiscal_day_no = some "12" ∧
        st1.last_receipt_global_no = none ∧
        st1.last_receipt_no = st.last_receipt_no ∧
        computeIsDayOpen st1.fiscal_day_status = false := by
  intro st now
  exact ⟨rfl, rfl, rfl, rfl, rfl⟩

/-- C3: the claim states a token response missing a required field is
recorded under a distinct INVALID_RESPONSE_STRUCTURE signal, not the
generic unknown-error code.  In the code the internal
`UserError('Invalid API response structure')` is caught by the trailing
`except Exception` handler, which records the generic UNKNOWN_ERROR. -/
theorem C3_counterexample :
    (getNewToken devBefore tokenRespMissing 50).1.last_error_code =
        some "UNKNOWN_ERROR" ∧
      (getNewToken devBefore tokenRespMissing 50).1.last_error_code ≠
        some "INVALID_RESPONSE_STRUCTURE" := by
  constructor <;> decide

/-- C3 (amended): whenever any of the three token fields is missing from
an HTTP-successful token response, the operation fails with the
user-facing message about an invalid response structure, but the
recorded diagnostic code is the generic UNKNOWN_ERROR — no distinct
INVALID_RESPONSE_STRUCTURE signal exists. -/
theorem C3_amended (st : DeviceState) (resp : TokenResponse) (now : Nat)
    (h : resp.access_token = none ∨ resp.refresh_token = none ∨
      resp.expires_in = none) :
    getNewToken st resp now =
      ({ st with
          last_error_code := some "UNKNOWN_ERROR"
          last_error_message :=
            some "Token refresh failed: Invalid API response structure"
          last_error_status := some 0
          last_status_check := some now },
       Except.error "Token refresh failed: Invalid API response structure") := by
  unfold getNewToken
  rcases resp with ⟨a, r, e⟩
  rcases a with _ | a <;> rcases r with _ | r <;> rcases e with _ | e <;>
    simp_all

/-- Closed instance of C3 (amended) at a concrete state and response. -/
theorem C3_amended_witness :
    getNewToken devBefore tokenRespMissing 50 =
      ({ devBefore with
          last_error_code := some "UNKNOWN_ERROR"
          last_error_message :=
            some "Token refresh failed: Invalid API response structure"
          last_error_status := some 0
          last_status_check := some 50 },
       Except.error "Token refresh failed: Invalid API response structure") :=
  C3_amended devBefore tokenRespMissing 50 (Or.inl rfl)

/-- C4: an already-fiscalised invoice is rejected at the precondition
check — no payload is built and no request is issued — and an invoice
whose company has no configured device is likewise rejected. -/
theorem C4_thm :
    (∀ (inv : Invoice) (device : Option DeviceState),
        inv.fiscalised = true →
          actionFiscaliseInvoice inv device =
              FiscaliseOutcome.precondError
                "This invoice is already fiscalised" ∧
            ∀ p, actionFiscaliseInvoice inv device ≠
              FiscaliseOutcome.request p) ∧
      ∀ inv : Invoice, inv.fiscalised = false →
        actionFiscaliseInvoice inv none =
            FiscaliseOutcome.precondError
              "No fiscal device configured for this company" ∧
          ∀ p, actionFiscaliseInvoice inv none ≠
            FiscaliseOutcome.request p := by
  constructor
  · intro inv device h
    simp [actionFiscaliseInvoice, h]
  · intro inv h
    simp [actionFiscaliseInvoice, h]

/-- Closed instance of C4 at concrete invoices. -/
theorem C4_witness :
    actionFiscaliseInvoice { fiscalised := true } (some devBefore) =
        FiscaliseOutcome.precondError
          "This invoice is already fiscalised" ∧
      actionFiscaliseInvoice { fiscalised := false } none =
        FiscaliseOutcome.precondError
          "No fiscal device configured for this company" :=
  ⟨(C4_thm.1 { fiscalised := true } (some devBefore) rfl).1,
   (C4_thm.2 { fiscalised := false } rfl).1⟩

/-- C8: a device call first runs the token check; an unset or past
`token_expiry` produces exactly one token acquisition before the single
primary request, while a future expiry produces none. -/
theorem C8_thm :
    (∀ (te : Option Nat) (now : Nat),
        (te = none ∨ ∃ e, te = some e ∧ e < now) →
          apiRequestEvents te now =
            [ApiEvent.tokenAcquisition, ApiEvent.primaryRequest]) ∧
      ∀ (e now : Nat), now < e →
        apiRequestEvents (some e) now = [ApiEvent.primaryRequest] := by
  constructor
  · rintro te now (rfl | ⟨e, rfl, he⟩)
    · rfl
    · simp [apiRequestEvents, refreshTokenIfNeededEvents, tokenExpired, he]
  · intro e now h
    simp [apiRequestEvents, refreshTokenIfNeededEvents, tokenExpired,
      Nat.not_lt.mpr (Nat.le_of_lt h), Nat.lt_asymm h]

/-- Closed instance of C8 at concrete expiries. -/
theorem C8_witness :
    apiRequestEvents (some 10) 20 =
        [ApiEvent.tokenAcquisition, ApiEvent.primaryRequest] ∧
      apiRequestEvents none 20 =
        [ApiEvent.tokenAcquisition, ApiEvent.primaryRequest] ∧
      apiRequestEvents (some 30) 20 = [ApiEvent.primaryRequest] :=
  ⟨C8_thm.1 (some 10) 20 (Or.inr ⟨10, rfl, by decide⟩),
   C8_thm.1 none 20 (Or.inl rfl),
   C8_thm.2 30 20 (by decide)⟩

/-- C9: the claim also states the detail line appears only when the
`detail` key is present.  The code always appends
`response_data.get('detail', '')`, so a missing detail still contributes
an (empty) joined line: on a body with no `detail` the message carries a
trailing blank line instead of omitting the slot. -/
theorem C9_counterexample :
    parseValidationErrors { errorCode := some "MISSING_REQUIRED_FIELD" } =
        "Required configuration missing in device\n" ∧
      parseValidationErrors { errorCode := some "MISSING_REQUIRED_FIELD" } ≠
        "Required configuration missing in device" := by
  constructor <;> decide

/-- C9 (amended): on the example body the message is the newline-join of
the lookup label, the detail text and the field line; unknown codes fall
back to the generic label; and the detail slot is always joined, as the
empty string when the key is absent (leaving a blank line), rather than
being omitted. -/
theorem C9_amended :
    parseValidationErrors vBody422 =
        "Required configuration missing in device\nx\nField buyerTIN: required" ∧
      parseValidationErrors { vBody422 with errorCode := some "NO_SUCH_CODE" } =
        "Validation error occurred\nx\nField buyerTIN: required" ∧
      parseValidationErrors
          { errorCode := some "DEVICE_NOT_FOUND"
            errors := some [("buyerTIN", ["required"])] } =
        "Device not registered in FDMS\n\nField buyerTIN: required" := by
  refine ⟨?_, ?_, ?_⟩ <;> decide

/-- C10: an invoice without a partner is rejected with a user-facing
error; buyer data is included exactly when the partner's `vat` and
`tin_number` are both set; yet `buyerTIN` is filled from the distinct
`tin` attribute via `customer_tin`, so buyer data can be included with
an empty `buyerTIN`. -/
theorem C10_thm :
    (prepareBuyerData none =
        Except.error "Customer information is required for fiscalisation") ∧
      (∀ p : Partner,
        (∃ b, prepareBuyerData (some p) = Except.ok (some b)) ↔
          p.vat.isSome ∧ p.tin_number.isSome) ∧
      ∀ p : Partner, p.vat.isSome → p.tin_number.isSome →
        ∃ b, prepareBuyerData (some p) = Except.ok (some b) ∧
          b.buyerTIN = p.tin.getD "" := by
  refine ⟨rfl, fun p => ?_, fun p hv ht => ?_⟩
  · constructor
    · rintro ⟨b, hb⟩
      by_contra hn
      simp [prepareBuyerData, hn] at hb
    · intro h
      refine ⟨{ buyerRegisterName := p.name
                vatNumber := computeCustomerVat (some p)
                buyerTIN := computeCustomerTin (some p)
                phoneNo := p.phone.getD ""
                email := p.email.getD "" }, ?_⟩
      simp [prepareBuyerData, h.1, h.2]
  · refine ⟨{ buyerRegisterName := p.name
              vatNumber := computeCustomerVat (some p)
              buyerTIN := computeCustomerTin (some p)
              phoneNo := p.phone.getD ""
              email := p.email.getD "" }, ?_, rfl⟩
    simp [prepareBuyerData, hv, ht]

/-- Closed instance of C10: a partner with `vat` and `tin_number` set
but no `tin` gets buyer data with an empty `buyerTIN`. -/
theorem C10_witness :
    ∃ b, prepareBuyerData (some partnerNoTin) = Except.ok (some b) ∧
      b.buyerTIN = partnerNoTin.tin.getD "" :=
  C10_thm.2.2 partnerNoTin rfl rfl

/-- C7: when the qualifying lines carry mixed tax-inclusion flags (one
line's first tax inclusive, another's exclusive), payload construction
fails with the mixed-inclusion error before any network call — the
outcome is a payload error, never a request. -/
theorem C7_thm (inv : Invoice) (device : DeviceState)
    (hf : inv.fiscalised = false)
    (l1 l2 : MoveLine) (h1 : l1 ∈ inv.lines) (h2 : l2 ∈ inv.lines)
    (hq1 : 0 < l1.quantity) (hq2 : 0 < l2.quantity)
    (t1 t2 : Tax) (r1 r2 : List Tax)
    (ht1 : l1.tax_ids = t1 :: r1) (ht2 : l2.tax_ids = t2 :: r2)
    (hi1 : t1.price_include = true) (hi2 : t2.price_include = false) :
    actionFiscaliseInvoice inv (some device) =
        FiscaliseOutcome.payloadError
          ("Mixed tax inclusion types detected. All invoice lines " ++
            "must consistently have either tax-inclusive or tax-exclusive prices.") ∧
      ∀ p, actionFiscaliseInvoice inv (some device) ≠
        FiscaliseOutcome.request p := by
  have hmem : ∀ (l : MoveLine) (t : Tax) (r : List Tax) (b : Bool),
      l ∈ inv.lines → 0 < l.quantity → l.tax_ids = t :: r →
      t.price_include = b → b ∈ taxInclusionTypes inv := by
    intro l t r b hl hq ht hb
    unfold taxInclusionTypes
    rw [List.mem_filterMap]
    refine ⟨l, ?_, ?_⟩
    · rw [List.mem_filter]
      exact ⟨hl, by simpa using hq⟩
    · rw [ht]
      simpa using hb
  have hmix : mixedTaxInclusion inv = true := by
    unfold mixedTaxInclusion
    rw [Bool.and_eq_true]
    exact ⟨List.elem_eq_true_of_mem (hmem l1 t1 r1 true h1 hq1 ht1 hi1),
      List.elem_eq_true_of_mem (hmem l2 t2 r2 false h2 hq2 ht2 hi2)⟩
  constructor
  · simp [actionFiscaliseInvoice, hf, prepareFiscalPayload, hmix]
  · intro p
    simp [actionFiscaliseInvoice, hf, prepareFiscalPayload, hmix]

/-- A first tax flagged price-inclusive. -/
def taxIncl : Tax := { amount := 15, price_include := true }

/-- A price-exclusive tax of 15 percent. -/
def taxExcl : Tax := { amount := 15, price_include := false }

/-- A line whose first tax is price-inclusive. -/
def mlIncl : MoveLine :=
  { name := "A", quantity := 1, price_unit := 10, tax_ids := [taxIncl] }

/-- A line whose first tax is price-exclusive. -/
def mlExcl : MoveLine :=
  { name := "B", quantity := 1, price_unit := 5, tax_ids := [taxExcl] }

/-- An unfiscalised invoice whose two lines disagree on tax inclusion. -/
def invMixed : Invoice := { lines := [mlIncl, mlExcl] }

/-- Closed instance of C7 on a two-line invoice with mixed flags. -/
theorem C7_witness :
    actionFiscaliseInvoice invMixed (some devBefore) =
      FiscaliseOutcome.payloadError
        ("Mixed tax inclusion types detected. All invoice lines " ++
          "must consistently have either tax-inclusive or tax-exclusive prices.") :=
  (C7_thm invMixed devBefore rfl mlIncl mlExcl (by simp [invMixed])
    (by simp [invMixed]) (by norm_num [mlIncl]) (by norm_num [mlExcl])
    taxIncl taxExcl [] [] rfl rfl rfl rfl).1

/-- The lines list carries the 1-based running numbering: the entry at
index `i` has `receiptLineNo = i + 1`. -/
def numberedFrom (acc : List ReceiptLine) : Prop :=
  ∀ i (hi : i < acc.length), (acc.get ⟨i, hi⟩).receiptLineNo = i + 1

theorem numberedFrom_append (acc : List ReceiptLine) (r : ReceiptLine)
    (hacc : numberedFrom acc) (hr : r.receiptLineNo = acc.length + 1) :
    numberedFrom (acc ++ [r]) := by
  intro i hi
  simp only [List.get_eq_getElem] at *
  rcases Nat.lt_or_ge i acc.length with h | h
  · rw [List.getElem_append_left h]
    exact hacc i h
  · have hlen : i < acc.length + 1 := by simpa using hi
    have hi' : i = acc.length := Nat.le_antisymm (Nat.lt_succ_iff.mp hlen) h
    subst hi'
    rw [List.getElem_append_right (Nat.le_refl _)]
    simpa using hr

theorem processLine_numbered (rt : String) (acc : List ReceiptLine)
    (l : MoveLine) (acc1 : List ReceiptLine)
    (h : processLine rt acc l = Except.ok acc1) (hacc : numberedFrom acc) :
    numberedFrom acc1 := by
  unfold processLine at h
  cases hhs : l.product_id.bind ProductInfo.hs_code with
  | none => rw [hhs] at h; cases h
  | some hs =>
      rw [hhs] at h
      dsimp only at h
      by_cases hd : 0 < l.discount
      · rw [if_pos hd] at h
        cases h
        refine numberedFrom_append _ _ (numberedFrom_append _ _ hacc rfl) ?_
        simp [discountLineOf]
      · rw [if_neg hd] at h
        cases h
        exact numberedFrom_append _ _ hacc rfl

theorem prepareLinesGo_numbered (rt : String) :
    ∀ (ls : List MoveLine) (acc out : List ReceiptLine),
      prepareLinesGo rt ls acc = Except.ok out → numberedFrom acc →
        numberedFrom out
  | [], acc, out, h, hacc => by
      unfold prepareLinesGo at h
      cases h
      exact hacc
  | l :: rest, acc, out, h, hacc => by
      unfold prepareLinesGo at h
      cases hp : processLine rt acc l with
      | error e => rw [hp] at h; cases h
      | ok acc1 =>
          rw [hp] at h
          exact prepareLinesGo_numbered rt rest acc1 out h
            (processLine_numbered rt acc l acc1 hp hacc)

theorem processLine_extends (rt : String) (acc : List ReceiptLine)
    (l : MoveLine) (acc1 : List ReceiptLine)
    (h : processLine rt acc l = Except.ok acc1) : List.IsPrefix acc acc1 := by
  unfold processLine at h
  cases hhs : l.product_id.bind ProductInfo.hs_code with
  | none => rw [hhs] at h; cases h
  | some hs =>
      rw [hhs] at h
      dsimp only at h
      by_cases hd : 0 < l.discount
      · rw [if_pos hd] at h
        cases h
        exact ⟨[saleLineOf rt (acc.length + 1) l hs,
          discountLineOf rt (acc.length + 2) l hs], by simp⟩
      · rw [if_neg hd] at h
        cases h
        exact ⟨[saleLineOf rt (acc.length + 1) l hs], rfl⟩

theorem prepareLinesGo_extends (rt : String) :
    ∀ (ls : List MoveLine) (acc out : List ReceiptLine),
      prepareLinesGo rt ls acc = Except.ok out → List.IsPrefix acc out
  | [], acc, out, h => by
      unfold prepareLinesGo at h
      cases h
      exact List.prefix_refl _
  | l :: rest, acc, out, h => by
      unfold prepareLinesGo at h
      cases hp : processLine rt acc l with
      | error e => rw [hp] at h; cases h
      | ok acc1 =>
          rw [hp] at h
          exact (processLine_extends rt acc l acc1 hp).trans
            (prepareLinesGo_extends rt rest acc1 out h)

/-- C5: (a) in any successfully built lines list, `receiptLineNo` is the
1-based running counter over the full emitted sequence; (b) a qualifying
line with positive discount emits exactly a Sale line followed
immediately by a Discount line sharing its HS code and tax percent, the
Discount price/total being the exact negations of the sign-adjusted
discount amount/total, numbered consecutively; (c) each loop step only
appends, so an emitted Sale/Discount pair stays adjacent in the final
list. -/
theorem C5_thm :
    (∀ (rt : String) (lines : List MoveLine) (ls : List ReceiptLine),
        prepareReceiptLines rt lines = Except.ok ls →
          ∀ i (hi : i < ls.length), (ls.get ⟨i, hi⟩).receiptLineNo = i + 1) ∧
      (∀ (rt : String) (acc : List ReceiptLine) (l : MoveLine) (hs : String),
        l.product_id.bind ProductInfo.hs_code = some hs → 0 < l.discount →
          ∃ s d, processLine rt acc l = Except.ok (acc ++ [s, d]) ∧
            s.receiptLineType = "Sale" ∧
            d.receiptLineType = "Discount" ∧
            d.receiptLineHSCode = s.receiptLineHSCode ∧
            s.receiptLineHSCode = hs ∧
            d.taxPercent = s.taxPercent ∧
            d.receiptLinePrice =
              -(adjust_amount (l.price_unit * (l.discount / 100)) rt) ∧
            d.receiptLineTotal =
              -(adjust_amount (l.price_unit * (l.discount / 100) * l.quantity)
                rt) ∧
            s.receiptLineNo = acc.length + 1 ∧
            d.receiptLineNo = acc.length + 2) ∧
      ∀ (rt : String) (ls : List MoveLine) (acc out : List ReceiptLine),
        prepareLinesGo rt ls acc = Except.ok out → List.IsPrefix acc out := by
  refine ⟨?_, ?_,
    fun rt ls acc out h => prepareLinesGo_extends rt ls acc out h⟩
  · intro rt lines ls h i hi
    exact prepareLinesGo_numbered rt (lines.filter qualifiesReceiptLine) [] ls
      h (fun j hj => by cases hj) i hi
  · intro rt acc l hs hhs hd
    have heq : processLine rt acc l =
        Except.ok (acc ++ [saleLineOf rt (acc.length + 1) l hs,
          discountLineOf rt (acc.length + 2) l hs]) := by
      unfold processLine
      rw [hhs]
      dsimp only
      rw [if_pos hd, List.append_assoc]
      rfl
    exact ⟨saleLineOf rt (acc.length + 1) l hs,
      discountLineOf rt (acc.length + 2) l hs,
      heq, rfl, rfl, rfl, rfl, rfl, rfl, rfl, rfl, rfl⟩

/-- A product with an HS code. -/
def prodHS : ProductInfo := { hs_code := some "8471.30" }

/-- A qualifying line with a 10 percent discount. -/
def mlDisc : MoveLine :=
  { name := "Widget", quantity := 2, price_unit := 100, discount := 10,
    tax_ids := [taxExcl], product_id := some prodHS }

/-- Closed instance of C5 on a concrete discounted line. -/
theorem C5_witness :
    ∃ s d, processLine "FiscalInvoice" [] mlDisc = Except.ok [s, d] ∧
      s.receiptLineType = "Sale" ∧
      d.receiptLineType = "Discount" ∧
      d.receiptLineHSCode = s.receiptLineHSCode ∧
      s.receiptLineHSCode = "8471.30" ∧
      d.taxPercent = s.taxPercent ∧
      d.receiptLinePrice =
        -(adjust_amount (mlDisc.price_unit * (mlDisc.discount / 100))
          "FiscalInvoice") ∧
      d.receiptLineTotal =
        -(adjust_amount
          (mlDisc.price_unit * (mlDisc.discount / 100) * mlDisc.quantity)
          "FiscalInvoice") ∧
      s.receiptLineNo = 1 ∧
      d.receiptLineNo = 2 :=
  C5_thm.2.1 "FiscalInvoice" [] mlDisc "8471.30" rfl (by norm_num [mlDisc])

/-- A receipt line with its monetary figures negated; all other fields
kept. -/
def negMoneyLine (r : ReceiptLine) : ReceiptLine :=
  { r with
    receiptLinePrice := -r.receiptLinePrice
    receiptLineTotal := -r.receiptLineTotal }

theorem adjust_amount_creditnote (a : ℚ) :
    adjust_amount a "CreditNote" = -a := by
  have h : pyUpper "CreditNote" = "CREDITNOTE" := by decide
  simp [adjust_amount, h]

theorem adjust_amount_debitnote (a : ℚ) :
    adjust_amount a "DebitNote" = a := by
  have h : pyUpper "DebitNote" = "DEBITNOTE" := by decide
  have h2 : ("DEBITNOTE" : String) ≠ "CREDITNOTE" := by decide
  simp [adjust_amount, h, h2]

theorem adjust_amount_fiscalinvoice (a : ℚ) :
    adjust_amount a "FiscalInvoice" = a := by
  have h : pyUpper "FiscalInvoice" = "FISCALINVOICE" := by decide
  have h2 : ("FISCALINVOICE" : String) ≠ "CREDITNOTE" := by decide
  simp [adjust_amount, h, h2]

theorem saleLineOf_creditnote (n : Nat) (l : MoveLine) (hs : String) :
    saleLineOf "CreditNote" n l hs =
      negMoneyLine (saleLineOf "FiscalInvoice" n l hs) := by
  simp [saleLineOf, negMoneyLine, adjust_amount_creditnote,
    adjust_amount_fiscalinvoice]

theorem discountLineOf_creditnote (n : Nat) (l : MoveLine) (hs : String) :
    discountLineOf "CreditNote" n l hs =
      negMoneyLine (discountLineOf "FiscalInvoice" n l hs) := by
  simp [discountLineOf, negMoneyLine, adjust_amount_creditnote,
    adjust_amount_fiscalinvoice]

theorem processLine_creditnote (acc : List ReceiptLine) (l : MoveLine) :
    processLine "CreditNote" (acc.map negMoneyLine) l =
      Except.map (List.map negMoneyLine)
        (processLine "FiscalInvoice" acc l) := by
  unfold processLine
  cases hhs : l.product_id.bind ProductInfo.hs_code with
  | none => rfl
  | some hs =>
      dsimp only
      by_cases hd : 0 < l.discount
      · simp only [if_pos hd, Except.map, List.map_append, List.length_map,
          List.map_cons, List.map_nil, saleLineOf_creditnote,
          discountLineOf_creditnote]
      · simp only [if_neg hd, Except.map, List.map_append, List.length_map,
          List.map_cons, List.map_nil, saleLineOf_creditnote]

theorem prepareLinesGo_creditnote :
    ∀ (ls : List MoveLine) (acc : List ReceiptLine),
      prepareLinesGo "CreditNote" ls (acc.map negMoneyLine) =
        Except.map (List.map negMoneyLine)
          (prepareLinesGo "FiscalInvoice" ls acc)
  | [], acc => rfl
  | l :: rest, acc => by
      unfold prepareLinesGo
      rw [processLine_creditnote]
      cases hp : processLine "FiscalInvoice" acc l with
      | error e => rfl
      | ok acc1 =>
          dsimp only [Except.map]
          exact prepareLinesGo_creditnote rest acc1

/-- C6: the CreditNote sign adjustment.  (i) the multiplier is -1 for a
CreditNote receipt type and (ii) +1 for every other computed receipt
type; (iii) the full lines list built for CreditNote is the
FiscalInvoice (sign-preserving) list with every price and total negated,
discount lines included; (iv) the single payment carries the negated
total for CreditNote and the unchanged total otherwise — together with
`receiptTotal = adjust_amount total`, every monetary figure of the
payload is negated exactly when the receipt type is CreditNote. -/
theorem C6_thm :
    (∀ (mt : String) (a : ℚ), computeReceiptType mt = "CreditNote" →
        adjust_amount a (computeReceiptType mt) = -a) ∧
      (∀ (mt : String) (a : ℚ), computeReceiptType mt ≠ "CreditNote" →
        adjust_amount a (computeReceiptType mt) = a) ∧
      (∀ (lines : List MoveLine) (ls : List ReceiptLine),
        prepareReceiptLines "FiscalInvoice" lines = Except.ok ls →
          prepareReceiptLines "CreditNote" lines =
            Except.ok (ls.map negMoneyLine)) ∧
      ∀ t : ℚ,
        preparePaymentData "CreditNote" t =
            [{ moneyTypeCode := "Cash", paymentAmount := -t }] ∧
          preparePaymentData "DebitNote" t =
            [{ moneyTypeCode := "Cash", paymentAmount := t }] ∧
          preparePaymentData "FiscalInvoice" t =
            [{ moneyTypeCode := "Cash", paymentAmount := t }] := by
  refine ⟨?_, ?_, ?_, ?_⟩
  · intro mt a h
    rw [h, adjust_amount_creditnote]
  · intro mt a h
    by_cases h1 : mt = "out_refund"
    · exact absurd (by simp [computeReceiptType, h1]) h
    · by_cases h2 : mt = "in_refund" <;>
        simp [computeReceiptType, h1, h2, adjust_amount_debitnote,
          adjust_amount_fiscalinvoice]
  · intro lines ls h
    have hgo := prepareLinesGo_creditnote
      (lines.filter qualifiesReceiptLine) []
    unfold prepareReceiptLines at h ⊢
    rw [show ([] : List ReceiptLine) = List.map negMoneyLine [] from rfl,
      hgo, h]
    rfl
  · intro t
    refine ⟨?_, ?_, ?_⟩ <;>
      simp [preparePaymentData, adjust_amount_creditnote,
        adjust_amount_debitnote, adjust_amount_fiscalinvoice]

/-- The sign-preserving (FiscalInvoice) lines built from `mlDisc`. -/
def lsFI : List ReceiptLine :=
  [saleLineOf "FiscalInvoice" 1 mlDisc "8471.30",
   discountLineOf "FiscalInvoice" 2 mlDisc "8471.30"]

/-- Closed instance of C6: the CreditNote lines for the concrete
discounted invoice line are the sign-preserving lines with negated
monetary figures. -/
theorem C6_witness :
    prepareReceiptLines "CreditNote" [mlDisc] =
      Except.ok (lsFI.map negMoneyLine) :=
  C6_thm.2.2.1 [mlDisc] lsFI rfl

end Fiscalisation
